import Mathlib

/-!
Shallow embedding of the HTTP tunnel listener of
`transport/internet/http/hub.go` and of the static reverse-tunnel picker
contract evidenced by `app/reverse/portal_test.go`.

Pure control flow of the Go functions is translated into executable Lean
functions; the side effects of `ServeHTTP` (header writes, status writes,
flushes, invoking the connection handler, blocking on the done signal) are
recorded as an ordered event trace.
-/

/-- Transport configuration, from `Config` (fields `Host []string`,
`Path string` used by `hub.go`). -/
structure Config where
  host : List String
  path : String
deriving DecidableEq, Repr

/-- Go's `strings.HasPrefix s p` on UTF-8 strings, as a character-list
test (kernel-reducible, unlike `String.startsWith`). -/
def strHasPref (s p : String) : Bool :=
  p.toList.isPrefixOf s.toList

/-- Go's `strings.HasSuffix s p`, as a character-list test. -/
def strHasSuf (s p : String) : Bool :=
  p.toList.isSuffixOf s.toList

/-- Modelled from the spec: `Config.isValidHost` lives in the repository's
`config.go`, which is not under `src/`.  The spec says the allowed-host set
is "empty = wildcard" and otherwise the request Host must be in the set. -/
def Config.isValidHost (c : Config) (host : String) : Bool :=
  c.host.isEmpty || c.host.contains host

/-- Modelled from the spec: `Config.getNormalizedPath` lives in the
repository's `config.go`, which is not under `src/`.  The spec says "a
non-empty prefix is normalized to start and end with `/`; default is `/`". -/
def Config.getNormalizedPath (c : Config) : String :=
  if c.path = "" then "/"
  else
    let p1 := if strHasPref c.path "/" then c.path else "/" ++ c.path
    if strHasSuf p1 "/" then p1 else p1 ++ "/"

/-- An address as produced by `http_proto.ParseXForwardedFor` (external
collaborator): either an IP (abstracted to a `Nat` value) or a domain name,
matching the `Family().IsIP()` test in `ServeHTTP`. -/
inductive XAddress where
  | ip (v : Nat)
  | domain (d : String)
deriving DecidableEq, Repr

def XAddress.isIP : XAddress → Bool
  | .ip _ => true
  | .domain _ => false

/-- The IP value of an `XAddress`, mirroring Go's `.IP()` accessor (only
used on the IP branch). -/
def XAddress.ipVal : XAddress → Nat
  | .ip v => v
  | .domain _ => 0

/-- The remote address the listener attaches to the synthesized
`Connection`: either the listener's own local address (the initial
`remoteAddr := l.Addr()` fallback) or a `net.TCPAddr{IP, Port}`. -/
inductive RemoteAddr where
  | listenerLocal
  | tcp (ipv : Nat) (port : Nat)
deriving DecidableEq, Repr

/-- An incoming HTTP request as `ServeHTTP` observes it.
`parsedRemote` is the result of `net.ParseDestination(request.RemoteAddr)`
(external collaborator; `some (ip, port)` on success, `none` on error),
`forwardedAddrs` the result of `http_proto.ParseXForwardedFor`
(external collaborator), and `writerIsFlusher` whether the response writer
satisfies the `http.Flusher` type assertion. -/
structure Request where
  host : String
  urlPath : String
  parsedRemote : Option (Nat × Nat)
  forwardedAddrs : List XAddress
  writerIsFlusher : Bool
deriving DecidableEq, Repr

/-- One observable side effect of `ServeHTTP`, in program order:
`setHeader` is `writer.Header().Set`, `writeHeader` is
`writer.WriteHeader`, `flush` is `f.Flush()` on the response writer,
`invokeHandler r` is `l.handler(conn)` with a `Connection` whose remote
address is `r`, and `waitDone` is the blocking `<-done.Wait()`. -/
inductive Event where
  | setHeader (k v : String)
  | writeHeader (status : Nat)
  | flush
  | invokeHandler (remote : RemoteAddr)
  | waitDone
deriving DecidableEq, Repr

/-- The remote-address derivation of `ServeHTTP` (hub.go lines 82-99):
start from the listener address, overwrite with the parsed
`request.RemoteAddr` destination when parsing succeeds, then overwrite
with the first X-Forwarded-For entry when it exists and is an IP
(port set to 0). -/
def deriveRemoteAddr (req : Request) : RemoteAddr :=
  let base : RemoteAddr :=
    match req.parsedRemote with
    | some d => .tcp d.1 d.2
    | none => .listenerLocal
  match req.forwardedAddrs with
  | [] => base
  | a :: _ => if a.isIP then .tcp a.ipVal 0 else base

/-- `Listener.ServeHTTP` (hub.go lines 64-111) as an event trace.  A host
or path policy failure writes status 404 and returns; otherwise the
handler sets `Cache-Control: no-store`, writes 200, flushes (when the
writer supports it), invokes the connection handler with the derived
remote address, and blocks on the done signal. -/
def ServeHTTP (c : Config) (req : Request) : List Event :=
  if ¬ c.isValidHost req.host then [.writeHeader 404]
  else if ¬ strHasPref req.urlPath c.getNormalizedPath then [.writeHeader 404]
  else
    [Event.setHeader "Cache-Control" "no-store", Event.writeHeader 200]
      ++ (if req.writerIsFlusher then [Event.flush] else [])
      ++ [Event.invokeHandler (deriveRemoteAddr req), Event.waitDone]

/-- Write error of `flushWriter.Write`: `io.ErrClosedPipe`. -/
inductive WriteErr where
  | closedPipe
deriving DecidableEq, Repr

/-- The destination sink wrapped by `flushWriter` (`fw.w`): the bytes it
has received, how many of them have been pushed by an explicit `Flush`,
and whether it satisfies the `http.Flusher` type assertion.  The
underlying `io.Writer` is modelled as an in-memory sink whose writes
succeed in full. -/
structure Sink where
  received : List Nat
  flushedCount : Nat
  isFlusher : Bool
deriving DecidableEq, Repr

/-- `flushWriter.Write` (hub.go lines 52-62): if the done signal has
fired, return `(0, io.ErrClosedPipe)` and touch nothing; otherwise write
`p` to the destination and, when the destination is an `http.Flusher`,
flush it before returning.  `doneFlag` is `fw.d.Done()`. -/
def flushWriterWrite (doneFlag : Bool) (s : Sink) (p : List Nat) :
    (Nat × Option WriteErr) × Sink :=
  if doneFlag then ((0, some .closedPipe), s)
  else
    let s1 : Sink := { s with received := s.received ++ p }
    let s2 : Sink :=
      if s1.isFlusher then { s1 with flushedCount := s1.received.length } else s1
    ((p.length, none), s2)

/-- The lock/server state of a `Listener` that `Close` manipulates:
whether the `locker` field is set (it is never cleared by `Close`), how
many times `locker.Release()` has been invoked, and how many times
`server.Close()` has been invoked. -/
structure Listener where
  hasLocker : Bool
  lockReleases : Nat
  serverCloses : Nat
deriving DecidableEq, Repr

/-- `Listener.Close` (hub.go lines 39-45): when the locker is set, invoke
`locker.Release()`; then invoke `server.Close()`.  The `locker` field is
left as-is. -/
def Listener.Close (l : Listener) : Listener :=
  let l1 : Listener :=
    if l.hasLocker then { l with lockReleases := l.lockReleases + 1 } else l
  { l1 with serverCloses := l1.serverCloses + 1 }

/-- The dynamic value held in `streamSettings.ProtocolSettings`: either a
`*Config` of this HTTP transport, or a settings value of some other
transport (the `other` tag names its Go type). -/
inductive ProtocolSettings where
  | httpConfig (c : Config)
  | other (tag : String)
deriving DecidableEq, Repr

/-- The slice of `internet.MemoryStreamConfig` that `Listen` consumes. -/
structure MemoryStreamConfig where
  protocolSettings : ProtocolSettings
deriving DecidableEq, Repr

/-- What the serving goroutine started by `Listen` produces: log entries
only — it has no channel back to the caller of `Listen`.  `served` records
whether `server.Serve`/`server.ServeTLS` was reached at all. -/
structure GoroutineRun where
  logs : List String
  served : Bool
deriving DecidableEq, Repr

/-- The goroutine body of `Listen` (hub.go lines 155-195): a bind failure
from `internet.ListenSystem` is logged and the goroutine returns without
serving; a serve error is logged after `Serve`/`ServeTLS` returns.  All
failures end up in `logs`; none is returned to `Listen`'s caller. -/
def listenGoroutine (bindErr : Option String) (serveErr : Option String) :
    GoroutineRun :=
  match bindErr with
  | some e => { logs := ["failed to listen: " ++ e], served := false }
  | none =>
      match serveErr with
      | some e => { logs := ["stoping serving: " ++ e], served := true }
      | none => { logs := [], served := true }

/-- Outcome of calling `Listen`: either a Go panic (the unchecked dynamic
cast `streamSettings.ProtocolSettings.(*Config)` failed), or a normal
return carrying the listener's configuration, the goroutine it spawned,
and the error value handed back to the caller. -/
inductive ListenResult where
  | panicked
  | returned (config : Config) (g : GoroutineRun) (err : Option String)
deriving DecidableEq, Repr

/-- `Listen` (hub.go lines 113-201): downcast `ProtocolSettings` to
`*Config` (panicking when it holds anything else), build the listener and
server, spawn the serving goroutine, and return `(listener, nil)`
synchronously.  `bindErr`/`serveErr` are the outcomes the spawned
goroutine will observe; they do not influence the returned value. -/
def Listen (ss : MemoryStreamConfig) (bindErr serveErr : Option String) :
    ListenResult :=
  match ss.protocolSettings with
  | .other _ => .panicked
  | .httpConfig c => .returned c (listenGoroutine bindErr serveErr) none

/-- A reverse-tunnel worker as the picker observes it.
Modelled from the spec: `app/reverse/portal.go` is not under `src/`; the
spec's Worker exposes `isAvailable()`. -/
structure Worker where
  available : Bool
deriving DecidableEq, Repr

/-- Modelled from the spec: the static fixed-membership picker of
`app/reverse/portal.go` (not under `src/`), holding the worker list it
was constructed with. -/
structure StaticMuxPicker where
  workers : List Worker
deriving DecidableEq, Repr

/-- Modelled from the spec: `NewStaticMuxPicker` constructs a static
picker with zero workers and no error (`portal_test.go` passes its error
through `common.Must`). -/
def NewStaticMuxPicker : Option String × StaticMuxPicker :=
  (none, { workers := [] })

/-- Modelled from the spec: `PickAvailable` on the static picker "iterates
the list and returns the first available one" and "must fail (not return a
null/placeholder Worker) with a distinguishable no-available-worker error
when the pool is empty or every Worker reports unavailable". -/
def StaticMuxPicker.PickAvailable (p : StaticMuxPicker) :
    Except String Worker :=
  match p.workers.find? (fun w => w.available) with
  | some w => .ok w
  | none => .error "no available worker"

/-- On an accepted request the trace contains the handler invocation with
the derived remote address (helper shared by several results below). -/
theorem invokeHandler_mem_of_accepted (c : Config) (req : Request)
    (hh : c.isValidHost req.host = true)
    (hp : strHasPref req.urlPath c.getNormalizedPath = true) :
    Event.invokeHandler (deriveRemoteAddr req) ∈ ServeHTTP c req := by
  simp [ServeHTTP, hh, hp]

/-- C1: a request whose Host fails the allowed-host check or whose path
does not start with the normalized prefix gets status 404 and the
connection handler is never invoked; an empty allowed-host set matches
any host. -/
theorem C1_policy_reject (c : Config) (req : Request)
    (h : c.isValidHost req.host = false ∨
         strHasPref req.urlPath c.getNormalizedPath = false) :
    ServeHTTP c req = [Event.writeHeader 404] ∧
    (∀ r, Event.invokeHandler r ∉ ServeHTTP c req) ∧
    (∀ (c2 : Config) (h2 : String), c2.host = [] → c2.isValidHost h2 = true) := by
  have htrace : ServeHTTP c req = [Event.writeHeader 404] := by
    unfold ServeHTTP
    rcases h with h | h
    · simp [h]
    · by_cases hv : c.isValidHost req.host
      · simp [hv, h]
      · simp [hv]
  refine ⟨htrace, ?_, ?_⟩
  · intro r hr
    rw [htrace] at hr
    simp at hr
  · intro c2 h2 hc
    simp [Config.isValidHost, hc]

/-- C1 witness: a configured host set not containing the request Host is
rejected with 404 at a concrete request. -/
theorem C1_policy_reject_witness :
    ServeHTTP ⟨["example.com"], "/tunnel"⟩ ⟨"other.com", "/tunnel/", none, [], true⟩
      = [Event.writeHeader 404] :=
  (C1_policy_reject ⟨["example.com"], "/tunnel"⟩
    ⟨"other.com", "/tunnel/", none, [], true⟩ (Or.inl (by decide))).1

/-- C2: a write on the flush adapter after the done signal fired returns
zero bytes and the closed-pipe error and leaves the sink untouched;
otherwise all bytes reach the sink, no error is returned, and a
flush-capable sink ends up flushed through the end of the written data. -/
theorem C2_flushWriter_write (s : Sink) (p : List Nat) :
    flushWriterWrite true s p = ((0, some WriteErr.closedPipe), s) ∧
    (flushWriterWrite false s p).1 = (p.length, none) ∧
    ((flushWriterWrite false s p).2).received = s.received ++ p ∧
    (s.isFlusher = true →
      ((flushWriterWrite false s p).2).flushedCount = (s.received ++ p).length) := by
  unfold flushWriterWrite
  by_cases hf : s.isFlusher
  · simp [hf]
  · simp [hf]

/-- C2 witness: the closed branch and the flush branch at a concrete sink
and payload. -/
theorem C2_flushWriter_write_witness :
    flushWriterWrite true ⟨[1], 0, true⟩ [2, 3]
      = ((0, some WriteErr.closedPipe), ⟨[1], 0, true⟩) ∧
    (flushWriterWrite false ⟨[1], 0, true⟩ [2, 3]).2.flushedCount = 3 := by
  have h := C2_flushWriter_write ⟨[1], 0, true⟩ [2, 3]
  exact ⟨h.1, (h.2.2.2 rfl).trans (by decide)⟩

/-- C3 counterexample: a listener holding the file lock, closed twice,
has invoked the lock release twice — not exactly once as claimed. -/
theorem C3_double_close_counterexample :
    (Listener.Close (Listener.Close ⟨true, 0, 0⟩)).lockReleases = 2 ∧
    (2 : Nat) ≠ 1 := by decide

/-- C3 amended: each `Close` call on a listener whose locker is set
performs one release and leaves the locker set, so a second `Close`
releases the lock again (one release per call, not exactly once). -/
theorem C3_close_releases_per_call (l : Listener) (h : l.hasLocker = true) :
    (Listener.Close l).lockReleases = l.lockReleases + 1 ∧
    (Listener.Close l).hasLocker = true ∧
    (Listener.Close (Listener.Close l)).lockReleases = l.lockReleases + 2 := by
  simp [Listener.Close, h]

/-- C3 witness: the per-call release at a concrete listener state. -/
theorem C3_close_releases_per_call_witness :
    (Listener.Close ⟨true, 5, 0⟩).lockReleases = 6 ∧
    (Listener.Close (Listener.Close ⟨true, 5, 0⟩)).lockReleases = 7 := by
  have h := C3_close_releases_per_call ⟨true, 5, 0⟩ rfl
  exact ⟨h.1, h.2.2⟩

/-- C4 counterexample: at a request where the transport remote endpoint
parses successfully (IP 10, port 443) and a valid forwarded-for entry
(IP 7) is also present, the handler receives the forwarded address, not
the parsed endpoint — so the parsed endpoint does not take priority. -/
theorem C4_forwarded_beats_parsed_counterexample :
    Event.invokeHandler (RemoteAddr.tcp 7 0)
        ∈ ServeHTTP ⟨[], ""⟩ ⟨"h", "/", some (10, 443), [XAddress.ip 7], true⟩ ∧
    Event.invokeHandler (RemoteAddr.tcp 10 443)
        ∉ ServeHTTP ⟨[], ""⟩ ⟨"h", "/", some (10, 443), [XAddress.ip 7], true⟩ := by
  decide

/-- C4 amended: the Connection's remote address is derived in priority
order from the forwarded-for header's first entry when it is a valid IP,
else from the parsed transport remote endpoint, else it is left as the
listener's own address (undetermined). -/
theorem C4_remote_addr_priority (c : Config) (req : Request)
    (hh : c.isValidHost req.host = true)
    (hp : strHasPref req.urlPath c.getNormalizedPath = true) :
    (∀ a rest, req.forwardedAddrs = a :: rest → a.isIP = true →
      Event.invokeHandler (RemoteAddr.tcp a.ipVal 0) ∈ ServeHTTP c req) ∧
    ((∀ a rest, req.forwardedAddrs = a :: rest → a.isIP = false) →
      ∀ ipv pt, req.parsedRemote = some (ipv, pt) →
        Event.invokeHandler (RemoteAddr.tcp ipv pt) ∈ ServeHTTP c req) ∧
    ((∀ a rest, req.forwardedAddrs = a :: rest → a.isIP = false) →
      req.parsedRemote = none →
        Event.invokeHandler RemoteAddr.listenerLocal ∈ ServeHTTP c req) := by
  have hmem := invokeHandler_mem_of_accepted c req hh hp
  refine ⟨?_, ?_, ?_⟩
  · intro a rest hfa hip
    have : deriveRemoteAddr req = RemoteAddr.tcp a.ipVal 0 := by
      simp [deriveRemoteAddr, hfa, hip]
    rwa [this] at hmem
  · intro hnofa ipv pt hparse
    have : deriveRemoteAddr req = RemoteAddr.tcp ipv pt := by
      cases hcase : req.forwardedAddrs with
      | nil => simp [deriveRemoteAddr, hcase, hparse]
      | cons a rest => simp [deriveRemoteAddr, hcase, hparse, hnofa a rest hcase]
    rwa [this] at hmem
  · intro hnofa hparse
    have : deriveRemoteAddr req = RemoteAddr.listenerLocal := by
      cases hcase : req.forwardedAddrs with
      | nil => simp [deriveRemoteAddr, hcase, hparse]
      | cons a rest => simp [deriveRemoteAddr, hcase, hparse, hnofa a rest hcase]
    rwa [this] at hmem

/-- C4 amended witness: with no forwarded header, the parsed endpoint is
used at a concrete request. -/
theorem C4_remote_addr_priority_witness :
    Event.invokeHandler (RemoteAddr.tcp 10 443)
      ∈ ServeHTTP ⟨[], ""⟩ ⟨"h", "/", some (10, 443), [], true⟩ :=
  (C4_remote_addr_priority ⟨[], ""⟩ ⟨"h", "/", some (10, 443), [], true⟩
      (by decide) (by decide)).2.1 (fun a rest h => by simp at h) 10 443 rfl

/-- C5: the static picker constructed with zero workers is built without
error, and `PickAvailable` on it returns the distinguishable
no-available-worker error rather than any worker. -/
theorem C5_empty_static_picker :
    NewStaticMuxPicker = (none, { workers := [] }) ∧
    StaticMuxPicker.PickAvailable { workers := [] }
      = Except.error "no available worker" := by
  exact ⟨rfl, rfl⟩

/-- C6: an accepted request's trace is exactly: set
`Cache-Control: no-store`, write status 200, flush, and only then invoke
the handler (the sole source of body bytes) and await the done signal —
so the headers are flushed before any body byte can be written. -/
theorem C6_headers_before_body (c : Config) (req : Request)
    (hh : c.isValidHost req.host = true)
    (hp : strHasPref req.urlPath c.getNormalizedPath = true)
    (hf : req.writerIsFlusher = true) :
    ServeHTTP c req =
      [Event.setHeader "Cache-Control" "no-store", Event.writeHeader 200,
       Event.flush, Event.invokeHandler (deriveRemoteAddr req), Event.waitDone] := by
  simp [ServeHTTP, hh, hp, hf]

/-- C6 witness: the accepted trace at a concrete request. -/
theorem C6_headers_before_body_witness :
    ServeHTTP ⟨["example.com"], "/tunnel"⟩ ⟨"example.com", "/tunnel/", none, [], true⟩
      = [Event.setHeader "Cache-Control" "no-store", Event.writeHeader 200,
         Event.flush, Event.invokeHandler RemoteAddr.listenerLocal, Event.waitDone] :=
  C6_headers_before_body ⟨["example.com"], "/tunnel"⟩
    ⟨"example.com", "/tunnel/", none, [], true⟩ (by decide) (by decide) rfl

/-- C7: when the forwarded-for header's first entry is a valid IP, it is
preferred over the parsed transport remote endpoint as the Connection's
remote address, with the port defaulted to 0. -/
theorem C7_forwarded_preferred (c : Config) (req : Request) (a : XAddress)
    (rest : List XAddress)
    (hh : c.isValidHost req.host = true)
    (hp : strHasPref req.urlPath c.getNormalizedPath = true)
    (hfa : req.forwardedAddrs = a :: rest) (hip : a.isIP = true) :
    deriveRemoteAddr req = RemoteAddr.tcp a.ipVal 0 ∧
    Event.invokeHandler (RemoteAddr.tcp a.ipVal 0) ∈ ServeHTTP c req := by
  have hd : deriveRemoteAddr req = RemoteAddr.tcp a.ipVal 0 := by
    simp [deriveRemoteAddr, hfa, hip]
  exact ⟨hd, hd ▸ invokeHandler_mem_of_accepted c req hh hp⟩

/-- C7 witness: the forwarded entry overrides a successfully parsed
endpoint at a concrete request. -/
theorem C7_forwarded_preferred_witness :
    deriveRemoteAddr ⟨"h", "/", some (10, 443), [XAddress.ip 7], true⟩
      = RemoteAddr.tcp 7 0 :=
  (C7_forwarded_preferred ⟨[], ""⟩ ⟨"h", "/", some (10, 443), [XAddress.ip 7], true⟩
      (XAddress.ip 7) [] (by decide) (by decide) rfl rfl).1

/-- C8: `Listen` returns the listener with a nil error regardless of the
bind or serve outcome its goroutine will observe; a bind failure is only
logged (the goroutine exits without serving) and a serve failure is only
logged — neither reaches the caller of `Listen`. -/
theorem C8_listen_errors_logged_not_returned (ss : MemoryStreamConfig)
    (c : Config) (h : ss.protocolSettings = ProtocolSettings.httpConfig c)
    (bindErr serveErr : Option String) :
    Listen ss bindErr serveErr
      = ListenResult.returned c (listenGoroutine bindErr serveErr) none ∧
    (∀ e, (listenGoroutine (some e) serveErr).logs = ["failed to listen: " ++ e] ∧
          (listenGoroutine (some e) serveErr).served = false) ∧
    (∀ e, (listenGoroutine none (some e)).logs = ["stoping serving: " ++ e]) := by
  refine ⟨?_, ?_, ?_⟩
  · simp [Listen, h]
  · intro e
    exact ⟨rfl, rfl⟩
  · intro e
    rfl

/-- C8 witness: at concrete settings with a failing bind, `Listen` still
returns a nil error and the failure shows up only in the goroutine log. -/
theorem C8_listen_errors_logged_not_returned_witness :
    Listen ⟨ProtocolSettings.httpConfig ⟨[], "/"⟩⟩ (some "EADDRINUSE") none
      = ListenResult.returned ⟨[], "/"⟩
          ⟨["failed to listen: EADDRINUSE"], false⟩ none :=
  (C8_listen_errors_logged_not_returned ⟨ProtocolSettings.httpConfig ⟨[], "/"⟩⟩
    ⟨[], "/"⟩ rfl (some "EADDRINUSE") none).1

/-- C9: on an accepted request, `ServeHTTP` invokes the connection
handler and then immediately blocks on the done signal, which is the last
event before control returns to the HTTP server. -/
theorem C9_handler_then_wait (c : Config) (req : Request)
    (hh : c.isValidHost req.host = true)
    (hp : strHasPref req.urlPath c.getNormalizedPath = true) :
    ∃ pre, ServeHTTP c req
      = pre ++ [Event.invokeHandler (deriveRemoteAddr req), Event.waitDone] := by
  refine ⟨[Event.setHeader "Cache-Control" "no-store", Event.writeHeader 200]
      ++ (if req.writerIsFlusher then [Event.flush] else []), ?_⟩
  simp [ServeHTTP, hh, hp]

/-- C9 witness: the handler-then-wait tail at a concrete request. -/
theorem C9_handler_then_wait_witness :
    ∃ pre, ServeHTTP ⟨[], "/"⟩ ⟨"h", "/", none, [], true⟩
      = pre ++ [Event.invokeHandler
          (deriveRemoteAddr ⟨"h", "/", none, [], true⟩), Event.waitDone] :=
  C9_handler_then_wait ⟨[], "/"⟩ ⟨"h", "/", none, [], true⟩ (by decide) (by decide)

/-- C10: `Listen` panics exactly when `ProtocolSettings` holds anything
other than this transport's `*Config`; under the `*Config` precondition
it returns normally. -/
theorem C10_listen_cast_panics (bindErr serveErr : Option String) :
    (∀ (ss : MemoryStreamConfig) (tag : String),
      ss.protocolSettings = ProtocolSettings.other tag →
      Listen ss bindErr serveErr = ListenResult.panicked) ∧
    (∀ (ss : MemoryStreamConfig) (c : Config),
      ss.protocolSettings = ProtocolSettings.httpConfig c →
      Listen ss bindErr serveErr ≠ ListenResult.panicked) := by
  constructor
  · intro ss tag h
    simp [Listen, h]
  · intro ss c h
    simp [Listen, h]

/-- C10 witness: settings carrying another transport's value make
`Listen` panic at a concrete input. -/
theorem C10_listen_cast_panics_witness :
    Listen ⟨ProtocolSettings.other "grpc"⟩ none none = ListenResult.panicked :=
  (C10_listen_cast_panics none none).1 ⟨ProtocolSettings.other "grpc"⟩ "grpc" rfl
